import Mathlib

set_option maxHeartbeats 1000000

/-!
Verification development for the GPS location-tracker service
(`server.js`, `models/TrackerRequest.js`, the service form script and the
user dashboard script, `assets/js/moderator.js`).

The route handlers of `server.js` are embedded as pure Lean functions:
the two submission validators, the moderator status-update handler and
the data-delivery handler.  Persistent state (the request collection and
the `DeliveredData` ledger) is passed explicitly.  JavaScript string
operations used by the code (`String.prototype.replace` with a string
pattern, which replaces only the first occurrence, `toLowerCase`,
`trim`) are modelled on `List Char`.  Falsy checks `!x` on strings are
modelled as emptiness tests and on numbers as a zero test, which is
faithful on the typed bodies considered here.
-/

namespace GpsTracker

/-- JavaScript `String.prototype.replace(pat, '')` with a string pattern:
removes the first occurrence of `pat`, if any. -/
def removeFirstOcc (pat : List Char) : List Char → List Char
  | [] => []
  | c :: rest =>
    if pat.isPrefixOf (c :: rest) then List.drop pat.length (c :: rest)
    else c :: removeFirstOcc pat rest

/-- The `service.replace('numberTo', '')` step of the validators. -/
def jsReplaceNumberTo (s : String) : String :=
  String.mk (removeFirstOcc "numberTo".data s.data)

/-- JavaScript `toLowerCase` on the ASCII strings used by the code. -/
def jsToLower (s : String) : String :=
  String.mk (s.data.map Char.toLower)

/-- The `dataKey` computed by both validators:
`service.replace('numberTo', '').toLowerCase()`. -/
def dataKeyOf (s : String) : String :=
  jsToLower (jsReplaceNumberTo s)

/-- JavaScript / mongoose `trim`: strip whitespace from both ends. -/
def jsTrim (s : String) : String :=
  String.mk
    ((((s.data.dropWhile Char.isWhitespace).reverse.dropWhile
        Char.isWhitespace).reverse))

/-- The hardcoded price table `servicePrices` of `server.js`
(also duplicated in the form script).  `none` models an absent key;
all present prices are nonzero, so the code's truthiness test
`servicePrices[service]` coincides with key membership. -/
def servicePrices (s : String) : Option Int :=
  if s == "imeiToNumber" then some 1500
  else if s == "numberToLocation" then some 1000
  else if s == "numberToNID" then some 800
  else if s == "numberToCallList3Months" then some 2000
  else if s == "numberToCallList6Months" then some 3000
  else none

/-- The list `validDataNeededForPhoneNumber` from both submission
handlers. -/
def validDataNeededForPhoneNumber : List String :=
  ["location", "nid", "callList3Months", "callList6Months"]

/-- The request body read by the submission handlers.  Absent string
fields are modelled as `""` (falsy), an absent charge as `0`. -/
structure SubmitBody where
  sourceType : String
  dataNeeded : List String
  serviceTypes : List String
  imei : String
  phoneNumber : String
  lastUsedPhoneNumber : String
  additionalNote : String
  serviceCharge : Int
  paymentMethod : String
  trxId : String
  deriving DecidableEq

/-- Outcome of the pure validation phase of a submission handler:
either an HTTP 400 rejection with its message, or acceptance carrying
the server-computed `expectedTotalCharge` (which at that point equals
the submitted `serviceCharge`). -/
inductive Decision where
  | reject (msg : String)
  | accept (expectedCharge : Int)
  deriving DecidableEq

/-- The handlers' basic validation: `!sourceType || !Array.isArray(dataNeeded)
|| dataNeeded.length === 0 || !Array.isArray(serviceTypes) ||
serviceTypes.length === 0 || !serviceCharge || !paymentMethod || !trxId`. -/
def basicMissing (b : SubmitBody) : Bool :=
  b.sourceType == "" || b.dataNeeded.isEmpty || b.serviceTypes.isEmpty ||
  b.serviceCharge == 0 || b.paymentMethod == "" || b.trxId == ""

/-- The `for (const service of serviceTypes)` loop of the `imei` branch:
skips `imeiToNumber`, rejects an entry whose `dataKey` is not a valid
data-needed name, rejects an entry missing from the price table, and
otherwise accumulates the price. -/
def chargeLoopImei : List String → Except String Int
  | [] => Except.ok 0
  | s :: rest =>
    if s == "imeiToNumber" then chargeLoopImei rest
    else
      if !(validDataNeededForPhoneNumber.contains (dataKeyOf s)) then
        Except.error ("Invalid service type for IMEI tracking: " ++ s)
      else
        match servicePrices s with
        | some p => (chargeLoopImei rest).map (fun t => t + p)
        | none => Except.error ("Unknown service type: " ++ s)

/-- The `for (const service of serviceTypes)` loop of the `phoneNumber`
branch. -/
def chargeLoopPhone : List String → Except String Int
  | [] => Except.ok 0
  | s :: rest =>
    if !(validDataNeededForPhoneNumber.contains (dataKeyOf s)) then
      Except.error ("Invalid service type for phone number tracking: " ++ s)
    else
      match servicePrices s with
      | some p => (chargeLoopPhone rest).map (fun t => t + p)
      | none => Except.error ("Unknown service type: " ++ s)

/-- Validation phase of `POST /tracker/submit-request` (transcribed from
its handler in `server.js`). -/
def submitRequestValidate (b : SubmitBody) : Decision :=
  if basicMissing b then
    Decision.reject "Missing required fields or invalid array format"
  else if b.sourceType == "imei" then
    if b.imei == "" then
      Decision.reject "IMEI is required for IMEI tracking"
    else if !(b.serviceTypes.contains "imeiToNumber") then
      Decision.reject "IMEI tracking must include imeiToNumber service"
    else
      match chargeLoopImei b.serviceTypes with
      | Except.error m => Decision.reject m
      | Except.ok t =>
        let expectedTotal : Int := (servicePrices "imeiToNumber").getD 0 + t
        let expectedDataNeeded : List String :=
          "number" ::
            (b.serviceTypes.filter (fun s => s != "imeiToNumber")).map dataKeyOf
        if b.dataNeeded.length != expectedDataNeeded.length ||
            !(b.dataNeeded.all (fun d => expectedDataNeeded.contains d)) then
          Decision.reject "Data needed mismatch for IMEI tracking"
        else if expectedTotal != b.serviceCharge then
          Decision.reject "Service charge mismatch. Please refresh and try again."
        else
          Decision.accept expectedTotal
  else if b.sourceType == "phoneNumber" then
    if b.phoneNumber == "" then
      Decision.reject "Phone number is required for phone number tracking"
    else
      match chargeLoopPhone b.serviceTypes with
      | Except.error m => Decision.reject m
      | Except.ok t =>
        let expectedDataNeeded : List String := b.serviceTypes.map dataKeyOf
        if b.dataNeeded.length != expectedDataNeeded.length ||
            !(b.dataNeeded.all (fun d => expectedDataNeeded.contains d)) then
          Decision.reject "Data needed mismatch for Phone Number tracking"
        else if t != b.serviceCharge then
          Decision.reject "Service charge mismatch. Please refresh and try again."
        else
          Decision.accept t
  else
    Decision.reject "Invalid source type"

/-- Validation phase of `POST /api/location-tracker/submit-service`
(transcribed from its handler in `server.js`; the source duplicates the
validation code of `/tracker/submit-request` verbatim). -/
def submitServiceValidate (b : SubmitBody) : Decision :=
  if basicMissing b then
    Decision.reject "Missing required fields or invalid array format"
  else if b.sourceType == "imei" then
    if b.imei == "" then
      Decision.reject "IMEI is required for IMEI tracking"
    else if !(b.serviceTypes.contains "imeiToNumber") then
      Decision.reject "IMEI tracking must include imeiToNumber service"
    else
      match chargeLoopImei b.serviceTypes with
      | Except.error m => Decision.reject m
      | Except.ok t =>
        let expectedTotal : Int := (servicePrices "imeiToNumber").getD 0 + t
        let expectedDataNeeded : List String :=
          "number" ::
            (b.serviceTypes.filter (fun s => s != "imeiToNumber")).map dataKeyOf
        if b.dataNeeded.length != expectedDataNeeded.length ||
            !(b.dataNeeded.all (fun d => expectedDataNeeded.contains d)) then
          Decision.reject "Data needed mismatch for IMEI tracking"
        else if expectedTotal != b.serviceCharge then
          Decision.reject "Service charge mismatch. Please refresh and try again."
        else
          Decision.accept expectedTotal
  else if b.sourceType == "phoneNumber" then
    if b.phoneNumber == "" then
      Decision.reject "Phone number is required for phone number tracking"
    else
      match chargeLoopPhone b.serviceTypes with
      | Except.error m => Decision.reject m
      | Except.ok t =>
        let expectedDataNeeded : List String := b.serviceTypes.map dataKeyOf
        if b.dataNeeded.length != expectedDataNeeded.length ||
            !(b.dataNeeded.all (fun d => expectedDataNeeded.contains d)) then
          Decision.reject "Data needed mismatch for Phone Number tracking"
        else if t != b.serviceCharge then
          Decision.reject "Service charge mismatch. Please refresh and try again."
        else
          Decision.accept t
  else
    Decision.reject "Invalid source type"

/-- The regex `/^01[3-9]\d{8}$/` of `validatePhone` in the service form
script: starts with `01`, third digit in `3`–`9`, eleven digits total. -/
def validatePhone (s : String) : Bool :=
  match s.data with
  | '0' :: '1' :: c :: rest =>
    ('3' ≤ c && c ≤ '9') && rest.length == 8 && rest.all Char.isDigit
  | _ => false

/-- A persisted request document, with the fields the submission
handlers store (`user` and timestamps omitted). -/
structure StoredRequest where
  sourceType : String
  dataNeeded : List String
  serviceTypes : List String
  imei : String
  phoneNumber : String
  lastUsedPhoneNumber : String
  additionalNote : String
  serviceCharge : Int
  paymentMethod : String
  trxId : String
  status : String
  deriving DecidableEq

/-- The document built by the submission handlers on successful
validation: the body's fields, `lastUsedPhoneNumber` only when
`sourceType === 'imei'`, and `status: 'Pending'`. -/
def mkStored (b : SubmitBody) : StoredRequest :=
  { sourceType := b.sourceType
    dataNeeded := b.dataNeeded
    serviceTypes := b.serviceTypes
    imei := b.imei
    phoneNumber := b.phoneNumber
    lastUsedPhoneNumber := if b.sourceType == "imei" then b.lastUsedPhoneNumber else ""
    additionalNote := b.additionalNote
    serviceCharge := b.serviceCharge
    paymentMethod := b.paymentMethod
    trxId := b.trxId
    status := "Pending" }

/-- Enum of the `dataNeeded` field in `trackerRequestSchema`. -/
def dataNeededEnum : List String :=
  ["number", "location", "nid", "callList3Months", "callList6Months"]

/-- Enum of the `serviceTypes` field in `trackerRequestSchema`. -/
def serviceTypesEnum : List String :=
  ["imeiToNumber", "numberToLocation", "numberToNID",
   "numberToCallList3Months", "numberToCallList6Months"]

/-- Document validation performed by mongoose at `save()` time, from
`trackerRequestSchema` in `models/TrackerRequest.js`: enum checks,
`serviceCharge ≥ 0`, `paymentMethod` enum, `trxId` required with
`minlength: 8` (validated after the `trim` setter), `additionalNote`
at most 500 characters, `status` enum. -/
def trackerSchemaValid (r : StoredRequest) : Bool :=
  ["imei", "phoneNumber"].contains r.sourceType &&
  r.dataNeeded.all (fun d => dataNeededEnum.contains d) &&
  r.serviceTypes.all (fun s => serviceTypesEnum.contains s) &&
  (jsTrim r.additionalNote).length ≤ 500 &&
  0 ≤ r.serviceCharge &&
  ["Crypto", "Nagad"].contains r.paymentMethod &&
  jsTrim r.trxId != "" &&
  8 ≤ (jsTrim r.trxId).length &&
  ["Pending", "Approved", "Rejected", "Completed"].contains r.status

/-- HTTP outcome of a full submission: handler-level rejection (400),
a `save()`-time mongoose validation failure caught by the handler's
`catch` (500), or a persisted document (201). -/
inductive SubmitOutcome where
  | badRequest (msg : String)
  | serverError
  | created (r : StoredRequest)
  deriving DecidableEq

/-- An event pushed over the WebSocket fan-out registry
(`activeConnections`): its `type` discriminator and target identity. -/
structure PushEvent where
  eventType : String
  targetUserId : String
  deriving DecidableEq

/-- The whole `POST /tracker/submit-request` handler: validation, then
`new TrackerRequest(...).save()` checked against the schema.  The third
component lists the WebSocket events the handler pushes; the handler
body contains no send on any connection, so it is `[]` on every path. -/
def submitRequestPipeline (b : SubmitBody) :
    SubmitOutcome × List PushEvent :=
  match submitRequestValidate b with
  | Decision.reject m => (SubmitOutcome.badRequest m, [])
  | Decision.accept _ =>
    if trackerSchemaValid (mkStored b) then
      (SubmitOutcome.created (mkStored b), [])
    else
      (SubmitOutcome.serverError, [])

/-- One record of the `DeliveredData` append-only ledger. -/
structure DeliveredRecord where
  requestId : String
  dataType : String
  dataContent : String
  deliveredBy : String
  deriving DecidableEq

/-- The mutable fields of a stored request that the admin handlers
touch. -/
structure ReqState where
  dataNeeded : List String
  status : String
  moderatorNotes : String
  deriving DecidableEq

/-- Server-side state: the request collection (keyed by id, ids unique)
and the `DeliveredData` ledger. -/
structure SysState where
  requests : List (String × ReqState)
  ledger : List DeliveredRecord
  deriving DecidableEq

/-- Lookup (`findById`) on the request collection. -/
def lookupReq : List (String × ReqState) → String → Option ReqState
  | [], _ => none
  | (k, v) :: rest, id => if k == id then some v else lookupReq rest id

/-- Replacing the document with a given id. -/
def updateReq : List (String × ReqState) → String → ReqState →
    List (String × ReqState)
  | [], _, _ => []
  | (k, v) :: rest, id, r =>
    if k == id then (k, r) :: rest else (k, v) :: updateReq rest id r

/-- HTTP outcome of `POST /admin/deliver-data`. -/
inductive DeliverOutcome where
  | badRequest (msg : String)
  | notFound (msg : String)
  | created
  deriving DecidableEq

/-- The `POST /admin/deliver-data` handler: reject missing fields,
404 when the request does not exist, otherwise append one
`DeliveredData` record, recompute the delivered `dataType`s for this
request from the full ledger, and advance the status: `Completed` when
every `dataNeeded` category is covered, else `Approved` when the status
was `Pending`, else unchanged.  The handler pushes no WebSocket events
(third component `[]` on every path). -/
def deliver (st : SysState) (requestId dataType dataContent deliveredBy : String) :
    SysState × DeliverOutcome × List PushEvent :=
  if requestId == "" || dataType == "" || dataContent == "" then
    (st, DeliverOutcome.badRequest
      "Missing required fields: requestId, dataType, dataContent", [])
  else
    match lookupReq st.requests requestId with
    | none =>
      (st, DeliverOutcome.notFound
        "Location tracker service request not found", [])
    | some req =>
      let newLedger := st.ledger ++
        [{ requestId := requestId, dataType := dataType,
           dataContent := dataContent, deliveredBy := deliveredBy }]
      let deliveredDataTypes :=
        (newLedger.filter (fun d => d.requestId == requestId)).map
          (fun d => d.dataType)
      let newStatus :=
        if req.dataNeeded.all (fun t => deliveredDataTypes.contains t) then
          "Completed"
        else if req.status == "Pending" then
          "Approved"
        else
          req.status
      ({ requests := updateReq st.requests requestId { req with status := newStatus }
         ledger := newLedger },
       DeliverOutcome.created, [])

/-- HTTP outcome of `PUT /admin/tracker/requests/:id/status`. -/
inductive UpdateOutcome where
  | badRequest (msg : String)
  | notFound (msg : String)
  | ok (r : ReqState)
  deriving DecidableEq

/-- The list `validStatuses` of the status-update handler. -/
def validStatuses : List String :=
  ["Pending", "Approved", "Rejected", "Completed"]

/-- The `PUT /admin/tracker/requests/:id/status` handler: reject an
invalid status, 404 on a missing request, otherwise overwrite `status`
and `moderatorNotes`.  The handler pushes no WebSocket events (third
component `[]` on every path). -/
def updateStatus (st : SysState) (id status moderatorNotes : String) :
    SysState × UpdateOutcome × List PushEvent :=
  if !(validStatuses.contains status) then
    (st, UpdateOutcome.badRequest "Invalid status provided", [])
  else
    match lookupReq st.requests id with
    | none => (st, UpdateOutcome.notFound "Tracker request not found", [])
    | some r =>
      let r' : ReqState :=
        { r with status := status, moderatorNotes := moderatorNotes }
      ({ st with requests := updateReq st.requests id r' }, UpdateOutcome.ok r', [])

/-- Sum of the price-table prices over a list of service keys (absent
keys contributing 0); vocabulary for stating the charge claims. -/
def priceSum (l : List String) : Int :=
  (l.map (fun s => (servicePrices s).getD 0)).sum

/-! ### Helper lemmas -/

lemma lookupReq_updateReq_self (l : List (String × ReqState)) (id : String)
    (r v : ReqState) (h : lookupReq l id = some v) :
    lookupReq (updateReq l id r) id = some r := by
  induction l with
  | nil => simp [lookupReq] at h
  | cons kv rest ih =>
    obtain ⟨k, w⟩ := kv
    by_cases hk : (k == id) = true
    · simp [lookupReq, updateReq, hk]
    · simp only [lookupReq, updateReq, hk, Bool.false_eq_true, if_false] at h ⊢
      exact ih h

lemma deliver_found (st : SysState) (id dt dc admin : String) (r : ReqState)
    (h0 : id ≠ "") (h1 : dt ≠ "") (h2 : dc ≠ "")
    (hr : lookupReq st.requests id = some r) :
    deliver st id dt dc admin =
      ({ requests := updateReq st.requests id
           { r with status :=
               if r.dataNeeded.all (fun t =>
                   (((st.ledger ++
                       [({ requestId := id, dataType := dt, dataContent := dc,
                           deliveredBy := admin } : DeliveredRecord)]).filter
                     (fun d => d.requestId == id)).map
                     (fun d => d.dataType)).contains t) then
                 "Completed"
               else if r.status == "Pending" then "Approved" else r.status }
         ledger := st.ledger ++
           [{ requestId := id, dataType := dt, dataContent := dc,
              deliveredBy := admin }] },
       DeliverOutcome.created, []) := by
  have hb : (id == "" || dt == "" || dc == "") = false := by
    simp [h0, h1, h2]
  simp only [deliver, hb, Bool.false_eq_true, if_false, hr]

lemma coverage_contains_iff (L : List DeliveredRecord) (id t : String) :
    (((L.filter (fun d => d.requestId == id)).map (fun d => d.dataType)).contains t)
      = true ↔ ∃ rec ∈ L, rec.requestId = id ∧ rec.dataType = t := by
  rw [List.contains_iff_exists_mem_beq]
  simp only [List.mem_map, List.mem_filter, beq_iff_eq]
  constructor
  · rintro ⟨a, ⟨d, ⟨hd, hid⟩, hdt⟩, hta⟩
    exact ⟨d, hd, hid, hdt.trans hta.symm⟩
  · rintro ⟨d, hd, hid, hdt⟩
    exact ⟨t, ⟨d, ⟨hd, hid⟩, hdt⟩, rfl⟩

lemma deliver_all_covered_iff (st : SysState) (id dt dc admin : String)
    (r : ReqState) (h0 : id ≠ "") (h1 : dt ≠ "") (h2 : dc ≠ "")
    (hr : lookupReq st.requests id = some r) :
    (r.dataNeeded.all (fun t =>
        (((st.ledger ++
            [({ requestId := id, dataType := dt, dataContent := dc,
                deliveredBy := admin } : DeliveredRecord)]).filter
          (fun d => d.requestId == id)).map
          (fun d => d.dataType)).contains t)) = true ↔
      (∀ t ∈ r.dataNeeded, ∃ rec ∈ (deliver st id dt dc admin).1.ledger,
        rec.requestId = id ∧ rec.dataType = t) := by
  rw [deliver_found st id dt dc admin r h0 h1 h2 hr]
  simp only [List.all_eq_true]
  constructor
  · intro h t ht
    exact (coverage_contains_iff _ id t).mp (h t ht)
  · intro h t ht
    exact (coverage_contains_iff _ id t).mpr (h t ht)

/-! ### The claims -/

/-- C10: the two submission endpoints `POST /tracker/submit-request` and
`POST /api/location-tracker/submit-service` implement extensionally
equal validation: on every request body they make the same accept/reject
decision, compute the same expected total charge, and produce the same
rejection message (the two handlers duplicate the validation code
verbatim). -/
theorem c10_endpoints_equal_validation (b : SubmitBody) :
    submitRequestValidate b = submitServiceValidate b := rfl

/-- C2 (code bug): neither the moderator status-update handler, nor the
delivery handler, nor the submission handler pushes any event over the
WebSocket fan-out registry: the list of pushed events is empty on every
path, so no `service-request-updated` or `new-service-request` event is
ever emitted, although the connection registry is maintained and both
frontend scripts install handlers for exactly those event types. -/
theorem c2_no_events_pushed (st : SysState) (id status notes rid dt dc admin : String)
    (b : SubmitBody) :
    (updateStatus st id status notes).2.2 = [] ∧
    (deliver st rid dt dc admin).2.2 = [] ∧
    (submitRequestPipeline b).2 = [] := by
  refine ⟨?_, ?_, ?_⟩
  · unfold updateStatus
    split
    · rfl
    · split <;> rfl
  · unfold deliver
    split
    · rfl
    · split <;> rfl
  · unfold submitRequestPipeline
    split
    · rfl
    · split <;> rfl

/-- C9: a `deliver` call naming a request id that does not exist fails
with the not-found error and leaves the whole state (requests and
delivery ledger) unchanged; when the request exists, the call succeeds
and appends exactly one record to the ledger. -/
theorem c9_deliver_not_found_atomic (st : SysState) (id dt dc admin : String)
    (h0 : id ≠ "") (h1 : dt ≠ "") (h2 : dc ≠ "") :
    (lookupReq st.requests id = none →
      deliver st id dt dc admin =
        (st, DeliverOutcome.notFound "Location tracker service request not found",
         [])) ∧
    (∀ r, lookupReq st.requests id = some r →
      (deliver st id dt dc admin).2.1 = DeliverOutcome.created ∧
      (deliver st id dt dc admin).1.ledger = st.ledger ++
        [{ requestId := id, dataType := dt, dataContent := dc,
           deliveredBy := admin }]) := by
  have hb : (id == "" || dt == "" || dc == "") = false := by
    simp [h0, h1, h2]
  constructor
  · intro hnone
    simp only [deliver, hb, Bool.false_eq_true, if_false, hnone]
  · intro r hr
    rw [deliver_found st id dt dc admin r h0 h1 h2 hr]
    exact ⟨rfl, rfl⟩

/-- Witness for C9 at a concrete state: delivering against an unknown
request id returns the 404 outcome and the state untouched. -/
theorem c9_witness :
    deliver { requests := [], ledger := [] } "r9" "location" "23.8,90.4" "adm" =
      ({ requests := [], ledger := [] },
       DeliverOutcome.notFound "Location tracker service request not found", []) :=
  (c9_deliver_not_found_atomic { requests := [], ledger := [] } "r9" "location"
    "23.8,90.4" "adm" (by decide) (by decide) (by decide)).1 rfl

/-- C4: as soon as, after a delivery, every category in the request's
`dataNeeded` has at least one record with matching `dataType` in the
full ledger, the delivery sets the request's status to `Completed` —
for every prior state and hence regardless of the order in which the
categories were delivered. -/
theorem c4_completion_from_full_ledger (st : SysState) (id dt dc admin : String)
    (r : ReqState) (h0 : id ≠ "") (h1 : dt ≠ "") (h2 : dc ≠ "")
    (hr : lookupReq st.requests id = some r)
    (hcov : ∀ t ∈ r.dataNeeded, ∃ rec ∈ (deliver st id dt dc admin).1.ledger,
        rec.requestId = id ∧ rec.dataType = t) :
    lookupReq (deliver st id dt dc admin).1.requests id =
      some { r with status := "Completed" } := by
  have hall := (deliver_all_covered_iff st id dt dc admin r h0 h1 h2 hr).mpr hcov
  rw [deliver_found st id dt dc admin r h0 h1 h2 hr]
  simp only [hall, if_true]
  exact lookupReq_updateReq_self _ _ _ _ hr

/-- Witness for C4: a request needing `number` and `location`, with
`number` already in the ledger; delivering `location` (the categories
arriving in reversed order) completes it. -/
theorem c4_witness :
    lookupReq (deliver
      { requests := [("r4", { dataNeeded := ["number", "location"],
                              status := "Approved", moderatorNotes := "" })]
        ledger := [{ requestId := "r4", dataType := "number",
                     dataContent := "017...", deliveredBy := "adm" }] }
      "r4" "location" "23.8,90.4" "adm").1.requests "r4" =
      some { dataNeeded := ["number", "location"], status := "Completed",
             moderatorNotes := "" } :=
  c4_completion_from_full_ledger _ "r4" "location" "23.8,90.4" "adm"
    { dataNeeded := ["number", "location"], status := "Approved", moderatorNotes := "" }
    (by decide) (by decide) (by decide) rfl (by decide)

lemma deliver_status_cases (st : SysState) (id dt dc admin : String)
    (r : ReqState) (h0 : id ≠ "") (h1 : dt ≠ "") (h2 : dc ≠ "")
    (hr : lookupReq st.requests id = some r) :
    ((∀ t ∈ r.dataNeeded, ∃ rec ∈ (deliver st id dt dc admin).1.ledger,
        rec.requestId = id ∧ rec.dataType = t) →
      lookupReq (deliver st id dt dc admin).1.requests id =
        some { r with status := "Completed" }) ∧
    (¬ (∀ t ∈ r.dataNeeded, ∃ rec ∈ (deliver st id dt dc admin).1.ledger,
        rec.requestId = id ∧ rec.dataType = t) →
      lookupReq (deliver st id dt dc admin).1.requests id =
        some { r with status :=
          if r.status == "Pending" then "Approved" else r.status }) := by
  have hiff := deliver_all_covered_iff st id dt dc admin r h0 h1 h2 hr
  constructor
  · intro hcov
    have hall := hiff.mpr hcov
    rw [deliver_found st id dt dc admin r h0 h1 h2 hr]
    simp only [hall, if_true]
    exact lookupReq_updateReq_self _ _ _ _ hr
  · intro hncov
    have hall : (r.dataNeeded.all (fun t =>
        (((st.ledger ++
            [({ requestId := id, dataType := dt, dataContent := dc,
                deliveredBy := admin } : DeliveredRecord)]).filter
          (fun d => d.requestId == id)).map
          (fun d => d.dataType)).contains t)) = false := by
      cases hc : (r.dataNeeded.all (fun t =>
          (((st.ledger ++
              [({ requestId := id, dataType := dt, dataContent := dc,
                  deliveredBy := admin } : DeliveredRecord)]).filter
            (fun d => d.requestId == id)).map
            (fun d => d.dataType)).contains t)) with
      | true => exact absurd (hiff.mp hc) hncov
      | false => rfl
    rw [deliver_found st id dt dc admin r h0 h1 h2 hr]
    simp only [hall, Bool.false_eq_true, if_false]
    exact lookupReq_updateReq_self _ _ _ _ hr

/-- C5 counterexample: a `Pending` request whose single needed category
is delivered by the very first `DeliveredData` record moves directly to
`Completed`, not to `Approved` as the claim states for every first
delivery while `Pending`. -/
theorem c5_counterexample :
    lookupReq (deliver
      { requests := [("r5", { dataNeeded := ["location"], status := "Pending",
                              moderatorNotes := "" })], ledger := [] }
      "r5" "location" "23.8,90.4" "adm").1.requests "r5" =
      some { dataNeeded := ["location"], status := "Completed",
             moderatorNotes := "" } ∧
    ("Completed" : String) ≠ "Approved" := ⟨by decide, by decide⟩

/-- C5 (amended): a delivery against a `Pending` request moves its
status to `Approved`, unless the delivery already covers every
`dataNeeded` category, in which case the status moves directly to
`Completed`. -/
theorem c5_pending_to_approved (st : SysState) (id dt dc admin : String)
    (r : ReqState) (h0 : id ≠ "") (h1 : dt ≠ "") (h2 : dc ≠ "")
    (hr : lookupReq st.requests id = some r) (hp : r.status = "Pending") :
    ((∀ t ∈ r.dataNeeded, ∃ rec ∈ (deliver st id dt dc admin).1.ledger,
        rec.requestId = id ∧ rec.dataType = t) →
      lookupReq (deliver st id dt dc admin).1.requests id =
        some { r with status := "Completed" }) ∧
    (¬ (∀ t ∈ r.dataNeeded, ∃ rec ∈ (deliver st id dt dc admin).1.ledger,
        rec.requestId = id ∧ rec.dataType = t) →
      lookupReq (deliver st id dt dc admin).1.requests id =
        some { r with status := "Approved" }) := by
  obtain ⟨hc, hn⟩ := deliver_status_cases st id dt dc admin r h0 h1 h2 hr
  refine ⟨hc, fun hx => ?_⟩
  have h5 := hn hx
  simp only [hp] at h5
  simpa using h5

/-- Witness for C5: the claim's own example — a `Pending` request with
`dataNeeded = ["number", "location"]` receiving its first delivery of
`dataType = "location"` moves to `Approved`. -/
theorem c5_witness :
    lookupReq (deliver
      { requests := [("r5w", { dataNeeded := ["number", "location"],
                               status := "Pending", moderatorNotes := "" })]
        ledger := [] }
      "r5w" "location" "23.8,90.4" "adm").1.requests "r5w" =
      some { dataNeeded := ["number", "location"], status := "Approved",
             moderatorNotes := "" } :=
  (c5_pending_to_approved
      { requests := [("r5w", { dataNeeded := ["number", "location"],
                               status := "Pending", moderatorNotes := "" })]
        ledger := [] }
      "r5w" "location" "23.8,90.4" "adm"
      { dataNeeded := ["number", "location"], status := "Pending",
        moderatorNotes := "" }
      (by decide) (by decide) (by decide) rfl rfl).2 (by decide)

/-- C6 counterexample: a delivery that covers every `dataNeeded`
category of a `Rejected` request changes its status to `Completed`, so a
delivery event can move a request out of `Rejected` without any
moderator override. -/
theorem c6_counterexample :
    lookupReq (deliver
      { requests := [("r6", { dataNeeded := ["location"], status := "Rejected",
                              moderatorNotes := "spam" })], ledger := [] }
      "r6" "location" "23.8,90.4" "adm").1.requests "r6" =
      some { dataNeeded := ["location"], status := "Completed",
             moderatorNotes := "spam" } ∧
    ("Completed" : String) ≠ "Rejected" := ⟨by decide, by decide⟩

/-- C6 (amended): a delivery against a `Rejected` request leaves the
status at `Rejected` (in particular never sets `Approved`) unless the
delivery covers every `dataNeeded` category, in which case the status
becomes `Completed` even from `Rejected`. -/
theorem c6_rejected_under_delivery (st : SysState) (id dt dc admin : String)
    (r : ReqState) (h0 : id ≠ "") (h1 : dt ≠ "") (h2 : dc ≠ "")
    (hr : lookupReq st.requests id = some r) (hj : r.status = "Rejected") :
    ((∀ t ∈ r.dataNeeded, ∃ rec ∈ (deliver st id dt dc admin).1.ledger,
        rec.requestId = id ∧ rec.dataType = t) →
      lookupReq (deliver st id dt dc admin).1.requests id =
        some { r with status := "Completed" }) ∧
    (¬ (∀ t ∈ r.dataNeeded, ∃ rec ∈ (deliver st id dt dc admin).1.ledger,
        rec.requestId = id ∧ rec.dataType = t) →
      lookupReq (deliver st id dt dc admin).1.requests id =
        some { r with status := "Rejected" }) := by
  obtain ⟨hc, hn⟩ := deliver_status_cases st id dt dc admin r h0 h1 h2 hr
  refine ⟨hc, fun hx => ?_⟩
  have h6 := hn hx
  simp only [hj] at h6
  simpa using h6

/-- Witness for C6: a partial delivery against a `Rejected` request
leaves it `Rejected`. -/
theorem c6_witness :
    lookupReq (deliver
      { requests := [("r6w", { dataNeeded := ["number", "location"],
                               status := "Rejected", moderatorNotes := "" })]
        ledger := [] }
      "r6w" "location" "23.8,90.4" "adm").1.requests "r6w" =
      some { dataNeeded := ["number", "location"], status := "Rejected",
             moderatorNotes := "" } :=
  (c6_rejected_under_delivery
      { requests := [("r6w", { dataNeeded := ["number", "location"],
                               status := "Rejected", moderatorNotes := "" })]
        ledger := [] }
      "r6w" "location" "23.8,90.4" "adm"
      { dataNeeded := ["number", "location"], status := "Rejected",
        moderatorNotes := "" }
      (by decide) (by decide) (by decide) rfl rfl).2 (by decide)

lemma chargeLoopImei_ok_sum (l : List String) (t : Int)
    (h : chargeLoopImei l = Except.ok t) :
    t = priceSum (l.filter (fun s => s != "imeiToNumber")) := by
  induction l generalizing t with
  | nil =>
    simp only [chargeLoopImei, Except.ok.injEq] at h
    simp [priceSum, ← h]
  | cons s rest ih =>
    by_cases hs : (s == "imeiToNumber") = true
    · rw [chargeLoopImei, if_pos hs] at h
      have hfs : ((s != "imeiToNumber") : Bool) = false := by
        simp [bne, hs]
      simp only [List.filter_cons, hfs, Bool.false_eq_true, if_false]
      exact ih t h
    · rw [chargeLoopImei, if_neg hs] at h
      split at h
      · exact absurd h (by simp)
      · split at h
        · rename_i p hp
          cases hrest : chargeLoopImei rest with
          | error e => rw [hrest] at h; exact absurd h (by simp [Except.map])
          | ok t0 =>
            rw [hrest] at h
            simp only [Except.map, Except.ok.injEq] at h
            have hfs : ((s != "imeiToNumber") : Bool) = true := by
              simp [bne, hs]
            simp only [List.filter_cons, hfs, if_true, priceSum, List.map_cons,
              List.sum_cons, hp, Option.getD_some]
            have := ih t0 hrest
            rw [priceSum] at this
            omega
        · exact absurd h (by simp)

lemma chargeLoopPhone_ok_sum (l : List String) (t : Int)
    (h : chargeLoopPhone l = Except.ok t) :
    t = priceSum l := by
  induction l generalizing t with
  | nil =>
    simp only [chargeLoopPhone, Except.ok.injEq] at h
    simp [priceSum, ← h]
  | cons s rest ih =>
    rw [chargeLoopPhone] at h
    split at h
    · exact absurd h (by simp)
    · split at h
      · rename_i p hp
        cases hrest : chargeLoopPhone rest with
        | error e => rw [hrest] at h; exact absurd h (by simp [Except.map])
        | ok t0 =>
          rw [hrest] at h
          simp only [Except.map, Except.ok.injEq] at h
          simp only [priceSum, List.map_cons, List.sum_cons, hp, Option.getD_some]
          have := ih t0 hrest
          rw [priceSum] at this
          omega
      · exact absurd h (by simp)

lemma accept_facts (b : SubmitBody) (t : Int)
    (h : submitServiceValidate b = Decision.accept t) :
    basicMissing b = false ∧ b.serviceCharge = t ∧
    ((b.sourceType = "imei" ∧ (b.imei == "") = false ∧
        b.serviceTypes.contains "imeiToNumber" = true ∧
        (∃ tl, chargeLoopImei b.serviceTypes = Except.ok tl ∧
          t = (servicePrices "imeiToNumber").getD 0 + tl) ∧
        (b.dataNeeded.length !=
            ("number" :: (b.serviceTypes.filter
              (fun s => s != "imeiToNumber")).map dataKeyOf).length ||
         !(b.dataNeeded.all (fun d =>
            ("number" :: (b.serviceTypes.filter
              (fun s => s != "imeiToNumber")).map dataKeyOf).contains d)))
          = false) ∨
     (b.sourceType = "phoneNumber" ∧ (b.phoneNumber == "") = false ∧
        chargeLoopPhone b.serviceTypes = Except.ok t ∧
        (b.dataNeeded.length != (b.serviceTypes.map dataKeyOf).length ||
         !(b.dataNeeded.all (fun d =>
            (b.serviceTypes.map dataKeyOf).contains d))) = false)) := by
  simp only [submitServiceValidate] at h
  split at h
  · exact absurd h (by simp)
  · rename_i hbasic
    split at h
    · rename_i hsrc
      split at h
      · exact absurd h (by simp)
      · rename_i himei
        split at h
        · exact absurd h (by simp)
        · rename_i hbase
          split at h
          · exact absurd h (by simp)
          · rename_i tl hloop
            split at h
            · exact absurd h (by simp)
            · rename_i hdata
              split at h
              · exact absurd h (by simp)
              · rename_i hcharge
                have ht : (servicePrices "imeiToNumber").getD 0 + tl = t := by
                  simpa using h
                have hch : (servicePrices "imeiToNumber").getD 0 + tl =
                    b.serviceCharge := by
                  simpa [bne_iff_ne] using hcharge
                refine ⟨Bool.eq_false_iff.mpr hbasic, by omega,
                  Or.inl ⟨?_, ?_, ?_, ?_, ?_⟩⟩
                · simpa [beq_iff_eq] using hsrc
                · exact Bool.eq_false_iff.mpr himei
                · have hb2 := Bool.eq_false_iff.mpr hbase
                  simpa using hb2
                · exact ⟨tl, hloop, ht.symm⟩
                · exact Bool.eq_false_iff.mpr hdata
    · rename_i hnimei
      split at h
      · rename_i hsrc
        split at h
        · exact absurd h (by simp)
        · rename_i hphone
          split at h
          · exact absurd h (by simp)
          · rename_i tl hloop
            split at h
            · exact absurd h (by simp)
            · rename_i hdata
              split at h
              · exact absurd h (by simp)
              · rename_i hcharge
                have ht : tl = t := by simpa using h
                have hch : tl = b.serviceCharge := by
                  simpa [bne_iff_ne] using hcharge
                subst ht
                refine ⟨Bool.eq_false_iff.mpr hbasic, hch.symm,
                  Or.inr ⟨?_, ?_, hloop, ?_⟩⟩
                · simpa [beq_iff_eq] using hsrc
                · exact Bool.eq_false_iff.mpr hphone
                · exact Bool.eq_false_iff.mpr hdata
      · exact absurd h (by simp)

lemma dataCheck_false (dn exp : List String)
    (h : (dn.length != exp.length || !(dn.all (fun d => exp.contains d)))
      = false) :
    dn.length = exp.length ∧ ∀ d ∈ dn, d ∈ exp := by
  rw [Bool.or_eq_false_iff] at h
  obtain ⟨h1, h2⟩ := h
  constructor
  · simpa using h1
  · have h2a : dn.all (fun d => exp.contains d) = true := by simpa using h2
    intro d hd
    have hcd := List.all_eq_true.mp h2a d hd
    rw [List.contains_iff_exists_mem_beq] at hcd
    obtain ⟨a, ha, hba⟩ := hcd
    rwa [show d = a from by simpa using hba]

/-- C3 counterexample: the handler checks only that `dataNeeded` has the
same length as the derived list and is contained in it, so a submission
whose `dataNeeded` repeats one category is accepted although its set
misses a category of the derived set: here `dataNeeded` as a set is
`{location}` while the image of `serviceTypes` under the strip-and-
lower-case map is `{location, nid}`. -/
theorem c3_counterexample :
    submitServiceValidate
      { sourceType := "phoneNumber", dataNeeded := ["location", "location"],
        serviceTypes := ["numberToLocation", "numberToNID"], imei := "",
        phoneNumber := "01712345678", lastUsedPhoneNumber := "",
        additionalNote := "", serviceCharge := 1800, paymentMethod := "Nagad",
        trxId := "12345678" } = Decision.accept 1800 ∧
    "nid" ∈ (["numberToLocation", "numberToNID"].map dataKeyOf) ∧
    "nid" ∉ (["location", "location"] : List String) :=
  ⟨by decide, by decide, by decide⟩

/-- C3 (amended): for every accepted submission, every element of
`dataNeeded` lies in the derived list (`"number"` plus the image of the
non-base `serviceTypes` under the strip-`numberTo`-and-lower-case map
for `sourceType = imei`; the image of `serviceTypes` for
`sourceType = phoneNumber`), and `dataNeeded` has the same length (with
multiplicity) as that derived list.  Set equality as claimed holds only
when `dataNeeded` has no duplicate entries. -/
theorem c3_data_needed_containment (b : SubmitBody) (t : Int)
    (h : submitServiceValidate b = Decision.accept t) :
    (b.sourceType = "imei" →
      b.dataNeeded.length =
        ("number" :: (b.serviceTypes.filter
          (fun s => s != "imeiToNumber")).map dataKeyOf).length ∧
      ∀ d ∈ b.dataNeeded,
        d ∈ "number" :: (b.serviceTypes.filter
          (fun s => s != "imeiToNumber")).map dataKeyOf) ∧
    (b.sourceType = "phoneNumber" →
      b.dataNeeded.length = (b.serviceTypes.map dataKeyOf).length ∧
      ∀ d ∈ b.dataNeeded, d ∈ b.serviceTypes.map dataKeyOf) := by
  obtain ⟨-, -, hbr⟩ := accept_facts b t h
  rcases hbr with ⟨hsrc, -, -, -, hdata⟩ | ⟨hsrc, -, -, hdata⟩
  · constructor
    · intro hx
      exact dataCheck_false _ _ hdata
    · intro hph
      rw [hsrc] at hph
      exact absurd hph (by decide)
  · constructor
    · intro him
      rw [hsrc] at him
      exact absurd him (by decide)
    · intro hx
      exact dataCheck_false _ _ hdata

/-- Witness for C3: a duplicate-free accepted phone-number submission
(`dataNeeded = ["location", "nid"]`) has as many entries as the derived
list. -/
theorem c3_witness :
    (["location", "nid"] : List String).length =
      ((["numberToLocation", "numberToNID"] : List String).map dataKeyOf).length :=
  ((c3_data_needed_containment
      { sourceType := "phoneNumber", dataNeeded := ["location", "nid"],
        serviceTypes := ["numberToLocation", "numberToNID"], imei := "",
        phoneNumber := "01712345678", lastUsedPhoneNumber := "",
        additionalNote := "", serviceCharge := 1800, paymentMethod := "Nagad",
        trxId := "12345678" } 1800 (by decide)).2 rfl).1

/-- C1 counterexample: the `imei` branch adds the `imeiToNumber` base
price once before its loop and then skips every `imeiToNumber`
occurrence, so a submission listing `imeiToNumber` twice is accepted
with `serviceCharge = 1500`, although the sum of the price-table prices
of the entries of `serviceTypes` is `3000`. -/
theorem c1_counterexample :
    submitServiceValidate
      { sourceType := "imei", dataNeeded := ["number"],
        serviceTypes := ["imeiToNumber", "imeiToNumber"],
        imei := "123456789012345", phoneNumber := "", lastUsedPhoneNumber := "",
        additionalNote := "", serviceCharge := 1500, paymentMethod := "Nagad",
        trxId := "12345678" } = Decision.accept 1500 ∧
    priceSum ["imeiToNumber", "imeiToNumber"] ≠ (1500 : Int) :=
  ⟨by decide, by decide⟩

/-- C1 (amended): a submission is accepted only if its declared
`serviceCharge` equals the server-computed expected charge — for
`sourceType = imei` the `imeiToNumber` base price counted once
regardless of its multiplicity in `serviceTypes` plus the price of each
other entry per occurrence, for `sourceType = phoneNumber` the sum of
the prices of all entries per occurrence — and on an accepted body any
other nonzero declared charge is rejected with the
service-charge-mismatch error (a zero charge is instead caught by the
basic missing-fields check), so no request is persisted on a
deviation. -/
theorem c1_charge_integrity (b : SubmitBody) (t : Int)
    (h : submitServiceValidate b = Decision.accept t) :
    b.serviceCharge = t ∧
    (b.sourceType = "imei" →
      b.serviceCharge = (servicePrices "imeiToNumber").getD 0 +
        priceSum (b.serviceTypes.filter (fun s => s != "imeiToNumber"))) ∧
    (b.sourceType = "phoneNumber" →
      b.serviceCharge = priceSum b.serviceTypes) ∧
    (∀ c : Int, c ≠ t → c ≠ 0 →
      submitServiceValidate { b with serviceCharge := c } =
        Decision.reject "Service charge mismatch. Please refresh and try again.") := by
  obtain ⟨hbasic, hsc, hbr⟩ := accept_facts b t h
  have hbasic' : ∀ c : Int, c ≠ 0 →
      basicMissing { b with serviceCharge := c } = false := by
    intro c hc0
    unfold basicMissing at hbasic ⊢
    rcases Bool.or_eq_false_iff.mp hbasic with ⟨hr, h6⟩
    rcases Bool.or_eq_false_iff.mp hr with ⟨hr2, h5⟩
    rcases Bool.or_eq_false_iff.mp hr2 with ⟨hr3, h4⟩
    rcases Bool.or_eq_false_iff.mp hr3 with ⟨hr4, h3⟩
    rcases Bool.or_eq_false_iff.mp hr4 with ⟨h1, h2⟩
    have h0 : (c == (0 : Int)) = false := by simpa using hc0
    simp only [Bool.or_eq_false_iff]
    exact ⟨⟨⟨⟨⟨h1, h2⟩, h3⟩, h0⟩, h5⟩, h6⟩
  rcases hbr with ⟨hsrc, himei, hbase, ⟨tl, hloop, htl⟩, hdata⟩ |
    ⟨hsrc, hphone, hloop, hdata⟩
  · refine ⟨hsc, fun _ => ?_, fun hph => ?_, fun c hct hc0 => ?_⟩
    · rw [hsc, htl, chargeLoopImei_ok_sum _ _ hloop]
    · rw [hsrc] at hph
      exact absurd hph (by decide)
    · have h7 : (((servicePrices "imeiToNumber").getD 0 + tl != c) : Bool)
          = true := by
        rw [← htl]
        exact bne_iff_ne.mpr (fun hh => hct hh.symm)
      simp only [submitServiceValidate, hbasic' c hc0, Bool.false_eq_true,
        if_false, hsrc, himei, hbase, hloop, hdata, h7]
      simp
      rw [← hsrc]
      exact hbasic' c hc0
  · refine ⟨hsc, fun him => ?_, fun _ => ?_, fun c hct hc0 => ?_⟩
    · rw [hsrc] at him
      exact absurd him (by decide)
    · rw [hsc, chargeLoopPhone_ok_sum _ _ hloop]
    · have h7 : ((t != c) : Bool) = true :=
        bne_iff_ne.mpr (fun hh => hct hh.symm)
      simp only [submitServiceValidate, hbasic' c hc0, Bool.false_eq_true,
        if_false, hsrc, hphone, hloop, hdata, h7]
      simp
      rw [← hsrc]
      exact hbasic' c hc0

/-- Witness for C1: the spec's own example — location + nid price out at
1800, and declaring 1799 on the otherwise-accepted body yields the
service-charge-mismatch rejection. -/
theorem c1_witness :
    submitServiceValidate
      { sourceType := "phoneNumber", dataNeeded := ["location", "nid"],
        serviceTypes := ["numberToLocation", "numberToNID"], imei := "",
        phoneNumber := "01712345678", lastUsedPhoneNumber := "",
        additionalNote := "", serviceCharge := 1799, paymentMethod := "Nagad",
        trxId := "12345678" } =
      Decision.reject "Service charge mismatch. Please refresh and try again." :=
  (c1_charge_integrity
      { sourceType := "phoneNumber", dataNeeded := ["location", "nid"],
        serviceTypes := ["numberToLocation", "numberToNID"], imei := "",
        phoneNumber := "01712345678", lastUsedPhoneNumber := "",
        additionalNote := "", serviceCharge := 1800, paymentMethod := "Nagad",
        trxId := "12345678" } 1800 (by decide)).2.2.2 1799 (by decide) (by decide)

/-- C7 counterexample: the server-side phoneNumber branch checks only
that phoneNumber is non-empty, so a submission with phoneNumber
"02712345678" — which fails the documented pattern, as witnessed by the
client-side validatePhone — is accepted by the endpoint. -/
theorem c7_counterexample :
    submitServiceValidate
      { sourceType := "phoneNumber", dataNeeded := ["location"],
        serviceTypes := ["numberToLocation"], imei := "",
        phoneNumber := "02712345678", lastUsedPhoneNumber := "",
        additionalNote := "", serviceCharge := 1000, paymentMethod := "Nagad",
        trxId := "12345678" } = Decision.accept 1000 ∧
    validatePhone "02712345678" = false := ⟨by decide, by decide⟩

/-- C7 (amended): server-side, a phoneNumber submission is rejected for
its phone number only when the field is empty; the pattern "starts with
01, third digit in 3-9, total 11 digits" is enforced client-side by
validatePhone, which rejects "02712345678" and accepts "01912345678". -/
theorem c7_phone_validation (b : SubmitBody)
    (hbasic : basicMissing b = false)
    (hsrc : b.sourceType = "phoneNumber") (hempty : b.phoneNumber = "") :
    submitServiceValidate b =
      Decision.reject "Phone number is required for phone number tracking" ∧
    validatePhone "02712345678" = false ∧
    validatePhone "01912345678" = true := by
  refine ⟨?_, by decide, by decide⟩
  simp only [submitServiceValidate, hbasic, Bool.false_eq_true, if_false,
    hsrc, hempty]
  simp

/-- Witness for C7: a concrete empty-phone submission is rejected with
the required-message. -/
theorem c7_witness :
    submitServiceValidate
      { sourceType := "phoneNumber", dataNeeded := ["location"],
        serviceTypes := ["numberToLocation"], imei := "", phoneNumber := "",
        lastUsedPhoneNumber := "", additionalNote := "",
        serviceCharge := 1000, paymentMethod := "Nagad",
        trxId := "12345678" } =
      Decision.reject "Phone number is required for phone number tracking" :=
  (c7_phone_validation
      { sourceType := "phoneNumber", dataNeeded := ["location"],
        serviceTypes := ["numberToLocation"], imei := "", phoneNumber := "",
        lastUsedPhoneNumber := "", additionalNote := "",
        serviceCharge := 1000, paymentMethod := "Nagad",
        trxId := "12345678" } (by decide) rfl rfl).1

/-- C8 counterexample: a trxId of 7 characters passes the handler's
basic validation (a truthiness test) and the submission fails only at
save time against the schema's minlength, surfacing as a 500 server
error — not as the claimed client-correctable 400 rejection. -/
theorem c8_counterexample :
    (submitRequestPipeline
      { sourceType := "phoneNumber", dataNeeded := ["location"],
        serviceTypes := ["numberToLocation"], imei := "",
        phoneNumber := "01712345678", lastUsedPhoneNumber := "",
        additionalNote := "", serviceCharge := 1000, paymentMethod := "Nagad",
        trxId := "1234567" }).1 = SubmitOutcome.serverError := by decide

/-- C8 (amended): a missing trxId or missing paymentMethod is rejected
by the handler with the 400 missing-fields message before anything is
persisted; a trxId whose trimmed length is under 8 characters is never
persisted either, but it passes the handler and is stopped only by the
schema's minlength at save time, surfaced as a 500. -/
theorem c8_trx_payment_validation (b : SubmitBody) :
    ((b.trxId = "" ∨ b.paymentMethod = "") →
      (submitRequestPipeline b).1 =
        SubmitOutcome.badRequest "Missing required fields or invalid array format") ∧
    ((jsTrim b.trxId).length < 8 →
      ∀ r, (submitRequestPipeline b).1 ≠ SubmitOutcome.created r) := by
  constructor
  · intro hmiss
    have hbm : basicMissing b = true := by
      unfold basicMissing
      rcases hmiss with hx | hx <;> simp [hx]
    simp [submitRequestPipeline, submitRequestValidate, hbm]
  · intro hlen r hcon
    unfold submitRequestPipeline at hcon
    cases hv : submitRequestValidate b with
    | reject m =>
      rw [hv] at hcon
      exact SubmitOutcome.noConfusion hcon
    | accept tv =>
      rw [hv] at hcon
      by_cases hs : trackerSchemaValid (mkStored b) = true
      · have h8 : 8 ≤ (jsTrim b.trxId).length := by
          simp only [trackerSchemaValid, Bool.and_eq_true,
            decide_eq_true_eq] at hs
          exact hs.1.2
        omega
      · rw [if_neg hs] at hcon
        exact SubmitOutcome.noConfusion hcon

/-- Witness for C8: a concrete submission with empty trxId gets the 400
missing-fields rejection. -/
theorem c8_witness :
    (submitRequestPipeline
      { sourceType := "phoneNumber", dataNeeded := ["location"],
        serviceTypes := ["numberToLocation"], imei := "",
        phoneNumber := "01712345678", lastUsedPhoneNumber := "",
        additionalNote := "", serviceCharge := 1000, paymentMethod := "Nagad",
        trxId := "" }).1 =
      SubmitOutcome.badRequest "Missing required fields or invalid array format" :=
  (c8_trx_payment_validation
      { sourceType := "phoneNumber", dataNeeded := ["location"],
        serviceTypes := ["numberToLocation"], imei := "",
        phoneNumber := "01712345678", lastUsedPhoneNumber := "",
        additionalNote := "", serviceCharge := 1000, paymentMethod := "Nagad",
        trxId := "" }).1 (Or.inl rfl)

end GpsTracker
